import Mathlib

/-!
Verification of the roster-optimization core of `optimize_roster.py`
(NBA fantasy helper).

The Python module builds integer linear programs with PuLP and hands them to
an external solver.  The shallow embedding below reproduces:

* the data model (one row per player, with the derived front/back-court
  indicator columns);
* the exact constraint set each of the two model-building functions
  (`optimize_roster`, `optimize_team_changes`) adds to its `LpProblem`;
* the result-extraction code that reads 0/1 variable values back into
  player lists;
* the surrounding control flow (status check in trade mode and its absence
  in rebuild mode, `load_current_team` validation, mode selection in
  `main`, and the process-global solver-verbosity flag).

Numeric columns (salary, projected points, the salary cap) live in an
arbitrary linear ordered commutative ring `K`: the general theorems hold
for any such ring (in particular for the exact rationals modelling the
source's real-number arithmetic), while concrete test instances use
`K := ℤ`, where the predicates evaluate by `decide`.

The solver itself is external: it is modelled by its observable output — a
status code plus a valuation of the decision variables (PuLP keeps the
variables in dictionaries keyed by the dataframe's integer index, hence
valuations are `Nat → Option K`; an unsolved variable has value `none`).
A solve that reports status 1 (optimal) returns a 0/1 valuation satisfying
every constraint of the model; the predicates `RosterFeasible` and
`TradeFeasible` below state exactly those constraint sets.
-/

/-- One row of the joined player table (columns of the SQL query in
`get_player_data` / `load_current_team`: Player, Pos, Team, salary,
avg_fpts, Games_Last_30D, value). -/
structure Player (K : Type) where
  name : String
  pos : String
  team : String
  salary : K
  avg_fpts : K
  games : ℤ
  value : K
deriving Repr, DecidableEq

/-- Source line 46: `df['is_front_court'] = df['Pos'].str.contains('F|C')` —
the regex matches iff the position code contains an `F` or a `C`. -/
def is_front_court {K : Type} (p : Player K) : Bool :=
  p.pos.data.contains 'F' || p.pos.data.contains 'C'

/-- Source line 47: `df['is_back_court'] = df['Pos'].str.contains('G')`. -/
def is_back_court {K : Type} (p : Player K) : Bool :=
  p.pos.data.contains 'G'

/-- The `RosterConstraints` dataclass (source lines 16-22) with its
defaults.  (`salary_cap` is carried but `optimize_roster` uses its separate
`salary_cap` argument for the cap constraint.) -/
structure RosterConstraints where
  salary_cap : ℤ := 100
  front_court_req : ℤ := 5
  back_court_req : ℤ := 5
  max_per_team : ℤ := 2
deriving Repr, DecidableEq

variable {K : Type} [LinearOrderedCommRing K]

/-- Numeric value of a 0/1 decision variable fixed by a Boolean choice. -/
def boolVal (b : Bool) : K := if b then 1 else 0

/-- The process-global PuLP solver object state touched by both optimizer
functions (`pulp.LpSolverDefault.msg`, source lines 75 and 194). -/
structure SolverGlobal where
  msg : Bool
deriving Repr, DecidableEq

/-- Observable output of `prob.solve()` for the rebuild model: the PuLP
status code (1 = optimal) and the valuation of the `players_<i>` variables,
keyed by dataframe index; `none` models a variable whose `.value()` is
`None` because the solver wrote no solution. -/
structure SolveResult (K : Type) where
  status : ℤ
  vals : ℕ → Option K

/-- Observable output of `prob.solve()` for the trade model: status code
plus the valuations of the `drop_<i>` and `add_<i>` variable dictionaries. -/
structure TradeSolveResult (K : Type) where
  status : ℤ
  dropVals : ℕ → Option K
  addVals : ℕ → Option K

/-- The valuation a solver reports for a binary variable dictionary whose
0/1 choices are given by `sel` (indices outside the dataframe stay unset). -/
def natVals (n : ℕ) (sel : Fin n → Bool) : ℕ → Option K :=
  fun k => if h : k < n then some (boolVal (sel ⟨k, h⟩)) else none

/-- `df['Team'].unique()` (source line 71): first-occurrence list of the
team values. -/
def uniqueTeams (df : List (Player K)) : List String :=
  (df.map Player.team).dedup

/-- The exact constraint set `optimize_roster` adds to its `LpProblem`
(source lines 64-73), for the binary selection `sel`:

1. line 65 — total salary of selected players ≤ `salary_cap` (the function
   argument, not the dataclass field);
2. line 66 — exactly 10 players selected (the roster size is the literal
   `10` in the source);
3. line 67 — selected front-court count = `constraints.front_court_req`;
4. line 68 — selected back-court count = `constraints.back_court_req`;
5. lines 71-73 — for every team value, selected players of that team
   ≤ `constraints.max_per_team`. -/
def RosterFeasible (df : List (Player K)) (salary_cap : K) (c : RosterConstraints)
    (sel : Fin df.length → Bool) : Prop :=
  ((List.finRange df.length).map fun i => (df.get i).salary * boolVal (sel i)).sum ≤ salary_cap ∧
  ((List.finRange df.length).map fun i => (boolVal (sel i) : K)).sum = 10 ∧
  ((List.finRange df.length).map fun i =>
      (boolVal (sel i) : K) * boolVal (is_front_court (df.get i))).sum = (c.front_court_req : K) ∧
  ((List.finRange df.length).map fun i =>
      (boolVal (sel i) : K) * boolVal (is_back_court (df.get i))).sum = (c.back_court_req : K) ∧
  ∀ t ∈ uniqueTeams df,
    (((List.finRange df.length).filter fun i => (df.get i).team = t).map
        fun i => (boolVal (sel i) : K)).sum ≤ (c.max_per_team : K)

instance (df : List (Player K)) (salary_cap : K) (c : RosterConstraints)
    (sel : Fin df.length → Bool) : Decidable (RosterFeasible df salary_cap c sel) := by
  unfold RosterFeasible; infer_instance

/-- The objective of the rebuild model (source line 62): total projected
fantasy points of the selected players. -/
def rosterObjective (df : List (Player K)) (sel : Fin df.length → Bool) : K :=
  ((List.finRange df.length).map fun i => (df.get i).avg_fpts * boolVal (sel i)).sum

/-- No binary selection satisfies the rebuild model's constraints. -/
def RosterInfeasible (df : List (Player K)) (salary_cap : K) (c : RosterConstraints) : Prop :=
  ∀ sel : Fin df.length → Bool, ¬ RosterFeasible df salary_cap c sel

instance (df : List (Player K)) (salary_cap : K) (c : RosterConstraints) :
    Decidable (RosterInfeasible df salary_cap c) := by
  unfold RosterInfeasible; infer_instance

/-- `get_selected_players` (source lines 79-93): keep every row whose
variable value equals 1.  (The source copies a fixed set of columns of the
row into a result dataframe; we keep the row itself.) -/
def get_selected_players [DecidableEq K] (df : List (Player K)) (vals : ℕ → Option K) :
    List (Player K) :=
  (List.finRange df.length).filterMap fun i =>
    if vals i.val = some 1 then some (df.get i) else none

/-- `optimize_roster` (source lines 51-77): builds the model, sets the
process-global `pulp.LpSolverDefault.msg` to `debug_flag` (line 75),
solves, and unconditionally returns `get_selected_players` — there is no
inspection of `prob.status` on this path.  The pair is (return value,
solver-global state after the call). -/
def optimize_roster [DecidableEq K] (df : List (Player K)) (salary_cap : K)
    (c : RosterConstraints) (debug_flag : Bool) (res : SolveResult K) (g : SolverGlobal) :
    List (Player K) × SolverGlobal :=
  (get_selected_players df res.vals, { msg := debug_flag })

/-- The hardcoded protected list (source line 149). -/
def protected_players : List String := ["Nikola Jokic"]

/-- `current_roster[current_roster['Player'] == player].index` followed by
`[0]` (source lines 166-168): the first dataframe index whose name matches,
if any. -/
def firstIndexOf (cur : List (Player K)) (pname : String) : Option (Fin cur.length) :=
  (List.finRange cur.length).find? fun i => (cur.get i).name = pname

/-- The exact constraint set `optimize_team_changes` adds to its
`LpProblem` (source lines 151-191), for drop choices `drop` over the
current roster and add choices `add` over the available pool:

1. line 152 — at most `transactions` players dropped;
2. line 153 — at most `transactions` players added;
3. line 154 — the source writes the Python chained comparison
   `lpSum(drop_vars) == lpSum(add_vars) <= transactions`, which evaluates
   as `(lhs == mid) and (mid <= transactions)`; the first comparison
   builds a (truthy, since non-empty) `LpConstraint` that is discarded by
   `and`, so the only constraint actually added to the model is
   `lpSum(add_vars) <= transactions` — the drop/add equality is never
   enforced;
4. lines 157-162 — current total salary, plus salary of added players,
   minus salary of dropped players, is at most `salary_cap`;
5. lines 164-168 — for each protected name present on the current roster,
   the drop variable of its first matching index is fixed to 0;
6. lines 176-182 — added front-court players + current front-court count −
   dropped front-court players = 5 (the quota is the literal `5`);
7. lines 183-184 — same for the back court;
8. lines 186-191 — for every team value of the available pool (only those:
   the loop ranges over `available_players['Team'].unique()`), at most 2
   added players of that team and at most 2 dropped current-roster players
   of that team (the bound is the literal `2`). -/
def TradeFeasible (cur avail : List (Player K)) (salary_cap : K) (transactions : ℤ)
    (drop : Fin cur.length → Bool) (add : Fin avail.length → Bool) : Prop :=
  ((List.finRange cur.length).map fun i => (boolVal (drop i) : K)).sum ≤ (transactions : K) ∧
  ((List.finRange avail.length).map fun i => (boolVal (add i) : K)).sum ≤ (transactions : K) ∧
  ((List.finRange avail.length).map fun i => (boolVal (add i) : K)).sum ≤ (transactions : K) ∧
  ((cur.map Player.salary).sum
    + ((List.finRange avail.length).map fun i => (avail.get i).salary * boolVal (add i)).sum
    - ((List.finRange cur.length).map fun i => (cur.get i).salary * boolVal (drop i)).sum)
      ≤ salary_cap ∧
  (∀ pname ∈ protected_players, ∀ j : Fin cur.length,
      firstIndexOf cur pname = some j → drop j = false) ∧
  ((((List.finRange avail.length).filter fun i => is_front_court (avail.get i)).map
        fun i => (boolVal (add i) : K)).sum
    + (cur.map fun q => (boolVal (is_front_court q) : K)).sum
    - ((List.finRange cur.length).map fun i =>
        (boolVal (is_front_court (cur.get i)) : K) * boolVal (drop i)).sum) = 5 ∧
  ((((List.finRange avail.length).filter fun i => is_back_court (avail.get i)).map
        fun i => (boolVal (add i) : K)).sum
    + (cur.map fun q => (boolVal (is_back_court q) : K)).sum
    - ((List.finRange cur.length).map fun i =>
        (boolVal (is_back_court (cur.get i)) : K) * boolVal (drop i)).sum) = 5 ∧
  ∀ t ∈ uniqueTeams avail,
    (((List.finRange avail.length).filter fun i => (avail.get i).team = t).map
        fun i => (boolVal (add i) : K)).sum ≤ 2 ∧
    (((List.finRange cur.length).filter fun i => (cur.get i).team = t).map
        fun i => (boolVal (drop i) : K)).sum ≤ 2

instance (cur avail : List (Player K)) (salary_cap : K) (transactions : ℤ)
    (drop : Fin cur.length → Bool) (add : Fin avail.length → Bool) :
    Decidable (TradeFeasible cur avail salary_cap transactions drop add) := by
  unfold TradeFeasible; infer_instance

/-- The objective of the trade model (source lines 145-146): projected
points of added players minus projected points of dropped players. -/
def tradeObjective (cur avail : List (Player K))
    (drop : Fin cur.length → Bool) (add : Fin avail.length → Bool) : K :=
  ((List.finRange avail.length).map fun i => (avail.get i).avg_fpts * boolVal (add i)).sum
    - ((List.finRange cur.length).map fun i => (cur.get i).avg_fpts * boolVal (drop i)).sum

/-- The message printed on an unsuccessful solve (source line 199). -/
def infeasibleMsg : String :=
  "The optimization problem is infeasible. Please check the constraints."

/-- What `optimize_team_changes` reports to the user after the solve:
either the infeasibility message, or the drop list and add list (source
lines 197-231). -/
inductive TradeOutcome (K : Type) where
  | infeasible (msg : String) : TradeOutcome K
  | proposal (drops adds : List (Player K)) : TradeOutcome K
deriving Repr, DecidableEq

/-- `optimize_team_changes` (source lines 132-254) after the model is
built: sets the process-global `pulp.LpSolverDefault.msg` to `debug_flag`
(line 194), solves, and then checks `prob.status != 1` (line 198) *before*
reading any variable value; only on status 1 does it build the drop/add
lists (same value-equals-1 filter as `get_selected_players`). -/
def optimize_team_changes [DecidableEq K] (cur avail : List (Player K)) (salary_cap : K)
    (transactions : ℤ) (debug_flag : Bool) (res : TradeSolveResult K)
    (g : SolverGlobal) : TradeOutcome K × SolverGlobal :=
  if res.status ≠ 1 then
    (TradeOutcome.infeasible infeasibleMsg, { msg := debug_flag })
  else
    (TradeOutcome.proposal (get_selected_players cur res.dropVals)
        (get_selected_players avail res.addVals),
      { msg := debug_flag })

/-- The count-mismatch error raised by `load_current_team`
(source lines 281-282). -/
def expectedMsg (n : ℕ) : String :=
  s!"Expected 10 players, but found {n}. Please check the current_team.txt file."

/-- `load_current_team` (source lines 256-288): the file contents are the
list of names; the SQL query returns the rows of the joined player table
(players with complete stat/salary data) whose name is in that list; if
the row count is not exactly 10 a `ValueError` naming the found count is
raised, otherwise the roster is returned (the source then adds the
derived court-indicator columns, which the embedding derives on demand via
`is_front_court`/`is_back_court`). -/
def load_current_team (names : List String) (db : List (Player K)) :
    Except String (List (Player K)) :=
  let current_roster := db.filter fun p => names.contains p.name
  if current_roster.length ≠ 10 then
    Except.error (expectedMsg current_roster.length)
  else
    Except.ok current_roster

/-- Command-line arguments of `main` (source lines 292-300). -/
structure CliArgs (K : Type) where
  salary_cap : K
  transactions : ℤ := 2
  debug : Bool := false
deriving Repr, DecidableEq

/-- The two operating modes of `main`. -/
inductive Mode where
  | trade : Mode
  | rebuild : Mode
deriving Repr, DecidableEq

/-- Mode selection in `main` (source lines 302-338): trade mode iff
`os.path.exists('current_team.txt')`; the parsed command-line arguments
are in scope but play no part in the branch. -/
def main_select_mode (args : CliArgs K) (fileExists : String → Bool) : Mode :=
  if fileExists "current_team.txt" then Mode.trade else Mode.rebuild

/-- The trade-mode branch of `main` (source lines 304-334): load and
validate the current roster (a raised `ValueError` propagates, so no model
is ever built), load the full player table, filter the roster's names out
of it to get the available pool (line 327), then run
`optimize_team_changes` with the parsed arguments. -/
def main_trade [DecidableEq K] (names : List String) (db allPlayers : List (Player K))
    (args : CliArgs K) (res : TradeSolveResult K) (g : SolverGlobal) :
    Except String (TradeOutcome K × SolverGlobal) := do
  let cur ← load_current_team names db
  let avail := allPlayers.filter fun p => !((cur.map Player.name).contains p.name)
  pure (optimize_team_changes cur avail args.salary_cap args.transactions args.debug res g)

/-- Helper for concrete player rows in the test instances below (games and
value columns play no role in any constraint). -/
def mkP (name pos team : String) (salary fpts : ℤ) : Player ℤ :=
  { name := name, pos := pos, team := team, salary := salary,
    avg_fpts := fpts, games := 10, value := 0 }

/-- Candidate table for the rebuild infeasibility scenario: ten players,
each of salary 20, so the (only) 10-player selection costs 200. -/
def c1df : List (Player ℤ) :=
  [mkP "p1" "F" "T1" 20 1, mkP "p2" "F" "T2" 20 1, mkP "p3" "F" "T3" 20 1,
   mkP "p4" "F" "T4" 20 1, mkP "p5" "F" "T5" 20 1, mkP "p6" "G" "T6" 20 1,
   mkP "p7" "G" "T7" 20 1, mkP "p8" "G" "T8" 20 1, mkP "p9" "G" "T9" 20 1,
   mkP "p10" "G" "T10" 20 1]

/-- A feasible candidate table for the rebuild mode: five front-court and
five back-court players, all on distinct teams, total salary 100. -/
def df10 : List (Player ℤ) :=
  [mkP "d1" "F" "S1" 10 1, mkP "d2" "F" "S2" 10 1, mkP "d3" "F" "S3" 10 1,
   mkP "d4" "F" "S4" 10 1, mkP "d5" "C" "S5" 10 1, mkP "d6" "G" "S6" 10 1,
   mkP "d7" "G" "S7" 10 1, mkP "d8" "G" "S8" 10 1, mkP "d9" "G" "S9" 10 1,
   mkP "d10" "G" "S10" 10 1]

/-- The all-selected assignment for `df10`. -/
def selAll : Fin df10.length → Bool := fun _ => true

/-- A current roster containing the protected player: Nikola Jokic plus
four further front-court and five back-court players, distinct teams. -/
def jokicRoster : List (Player ℤ) :=
  [mkP "Nikola Jokic" "C" "DEN" 10 1, mkP "w2" "F" "W2" 10 1,
   mkP "w3" "F" "W3" 10 1, mkP "w4" "F" "W4" 10 1, mkP "w5" "F" "W5" 10 1,
   mkP "w6" "G" "W6" 10 1, mkP "w7" "G" "W7" 10 1, mkP "w8" "G" "W8" 10 1,
   mkP "w9" "G" "W9" 10 1, mkP "w10" "G" "W10" 10 1]

/-- The unchanged (all-false) drop assignment on `jokicRoster`. -/
def jokicDrop : Fin jokicRoster.length → Bool := fun _ => false

/-- The unchanged add assignment on an empty available pool. -/
def emptyAdd : Fin ([] : List (Player ℤ)).length → Bool := fun _ => false

/-- Current roster for the trade instance refuting the drop/add-equality
claim: front-court count 6 (f1-f5 and the dual-eligible b1), back-court
count 5 (g1-g4 and b1), all salaries 10 (total 100), distinct teams. -/
def c2cur : List (Player ℤ) :=
  [mkP "f1" "F" "u1" 10 1, mkP "f2" "F" "u2" 10 10, mkP "f3" "F" "u3" 10 10,
   mkP "f4" "F" "u4" 10 10, mkP "f5" "F" "u5" 10 10, mkP "g1" "G" "u6" 10 10,
   mkP "g2" "G" "u7" 10 10, mkP "g3" "G" "u8" 10 10, mkP "g4" "G" "u9" 10 10,
   mkP "b1" "G-F" "u10" 10 10]

/-- Available pool for the same instance: one back-court player whose
salary (11) cannot be absorbed without at least two drops. -/
def c2avail : List (Player ℤ) := [mkP "h1" "G" "v1" 11 0]

/-- Drop exactly `f1`. -/
def c2drop : Fin c2cur.length → Bool := fun i => decide (i.val = 0)

/-- Add nobody. -/
def c2add : Fin c2avail.length → Bool := fun _ => false

/-- Current roster for the per-team-churn instance: all ten players on
team AAA (front-court count 6, back-court count 6 via the two dual-court
players), salary 13 each — total 130, which is over the cap of 100, so
drops are forced. -/
def c4cur : List (Player ℤ) :=
  [mkP "m1" "F" "AAA" 13 1, mkP "m2" "F" "AAA" 13 1, mkP "m3" "F" "AAA" 13 1,
   mkP "m4" "F" "AAA" 13 1, mkP "m5" "G" "AAA" 13 1, mkP "m6" "G" "AAA" 13 1,
   mkP "m7" "G" "AAA" 13 1, mkP "m8" "G" "AAA" 13 1,
   mkP "m9" "G-F" "AAA" 13 1, mkP "m10" "G-F" "AAA" 13 1]

/-- Available pool for the same instance: two dual-court players on other
teams; team AAA has no available player, so the per-team drop constraint
of the source loop is never generated for AAA. -/
def c4avail : List (Player ℤ) := [mkP "q1" "G-F" "P1" 1 5, mkP "q2" "G-F" "P2" 1 5]

/-- Drop `m1` (F), `m5` (G) and `m9` (G-F) — three players of team AAA. -/
def c4drop : Fin c4cur.length → Bool := fun i => decide (i.val = 0 ∨ i.val = 4 ∨ i.val = 8)

/-- Add `q1`. -/
def c4add : Fin c4avail.length → Bool := fun i => decide (i.val = 0)

/-- Three roster names that resolve against a known-player table of three
rows (for the `load_current_team` count-mismatch witness). -/
def c8names : List String := ["x1", "x2", "x3"]

/-- The joined player table for the same witness. -/
def c8db : List (Player ℤ) :=
  [mkP "x1" "F" "Y1" 10 1, mkP "x2" "G" "Y2" 10 1, mkP "x3" "G" "Y3" 10 1,
   mkP "x4" "G" "Y4" 10 1]

/-- Ten names resolving to exactly ten known players (for the
`load_current_team` success witness): the names of `jokicRoster`. -/
def c8names10 : List String := jokicRoster.map Player.name

/-- Decode a bitmask into a Boolean assignment on `Fin n` (used to
enumerate all solver assignments of a binary variable dictionary). -/
def bitSel (n : ℕ) (m : ℕ) : Fin n → Bool := fun i => m.testBit i.val

/-! ### General lemmas -/

lemma bitSel_surjective : ∀ (n : ℕ) (sel : Fin n → Bool), ∃ m, m < 2 ^ n ∧ bitSel n m = sel := by
  intro n
  induction n with
  | zero =>
    intro sel
    exact ⟨0, by norm_num, funext fun i => i.elim0⟩
  | succ n ih =>
    intro sel
    obtain ⟨m, hm, he⟩ := ih fun i => sel i.succ
    refine ⟨2 * m + (if sel 0 then 1 else 0), ?_, ?_⟩
    · rw [pow_succ]
      cases h : sel 0 <;> simp [h] <;> omega
    · funext i
      refine Fin.cases ?_ ?_ i
      · show Nat.testBit _ 0 = sel 0
        rw [Nat.testBit_zero]
        cases h : sel 0 <;> simp [h] <;> omega
      · intro j
        show Nat.testBit _ (j.val + 1) = sel j.succ
        rw [Nat.testBit_add_one]
        have hdiv : (2 * m + (if sel 0 then 1 else 0)) / 2 = m := by
          cases h : sel 0 <;> simp [h] <;> omega
        rw [hdiv]
        exact congrFun he j

lemma forall_sel_iff (n : ℕ) (P : (Fin n → Bool) → Prop) :
    (∀ sel, P sel) ↔ ∀ m, m < 2 ^ n → P (bitSel n m) := by
  constructor
  · intro h m _
    exact h _
  · intro h sel
    obtain ⟨m, hm, he⟩ := bitSel_surjective n sel
    exact he ▸ h m hm

lemma filterMap_ite {α β : Type} (g : α → β) (q : α → Bool) (l : List α) :
    (l.filterMap fun i => if q i then some (g i) else none) = (l.filter q).map g := by
  induction l with
  | nil => rfl
  | cons a t ih =>
    cases h : q a <;> simp [List.filterMap_cons, List.filter_cons, h, ih]

lemma boolVal_false : (boolVal false : K) = 0 := rfl

lemma boolVal_true : (boolVal true : K) = 1 := rfl

lemma sum_map_mul_boolVal {α : Type} (l : List α) (f : α → K) (q : α → Bool) :
    (l.map fun i => f i * boolVal (q i)).sum = ((l.filter q).map f).sum := by
  induction l with
  | nil => rfl
  | cons a t ih =>
    cases h : q a
    · rw [List.map_cons, List.sum_cons, h, boolVal_false, mul_zero, zero_add,
        List.filter_cons_of_neg (by simp [h]), ih]
    · rw [List.map_cons, List.sum_cons, h, boolVal_true, mul_one,
        List.filter_cons_of_pos (by simp [h]), List.map_cons, List.sum_cons, ih]

lemma sum_map_boolVal {α : Type} (l : List α) (q : α → Bool) :
    (l.map fun i => (boolVal (q i) : K)).sum = ((l.filter q).length : K) := by
  induction l with
  | nil => simp
  | cons a t ih =>
    cases h : q a
    · rw [List.map_cons, List.sum_cons, h, boolVal_false, zero_add,
        List.filter_cons_of_neg (by simp [h]), ih]
    · rw [List.map_cons, List.sum_cons, h, boolVal_true,
        List.filter_cons_of_pos (by simp [h]), List.length_cons, ih]
      push_cast
      ring

lemma boolVal_mul_boolVal (b c : Bool) : (boolVal b : K) * boolVal c = boolVal (b && c) := by
  cases b <;> cases c <;> simp [boolVal]

lemma sum_map_boolVal_mul_boolVal {α : Type} (l : List α) (q r : α → Bool) :
    (l.map fun i => (boolVal (q i) : K) * boolVal (r i)).sum
      = ((l.filter fun i => q i && r i).length : K) := by
  simp only [boolVal_mul_boolVal]
  exact sum_map_boolVal l fun i => q i && r i

lemma length_filter_and_comm {α : Type} (l : List α) (p q : α → Bool) :
    (l.filter fun a => p a && q a).length = (l.filter fun a => q a && p a).length := by
  have h : (l.filter fun a => p a && q a) = l.filter fun a => q a && p a :=
    List.filter_congr fun a _ => Bool.and_comm _ _
  rw [h]

lemma get_selected_natVals [DecidableEq K] (df : List (Player K)) (sel : Fin df.length → Bool) :
    get_selected_players df (natVals df.length sel)
      = ((List.finRange df.length).filter fun i => sel i).map df.get := by
  rw [get_selected_players, ← filterMap_ite df.get fun i => sel i]
  apply List.filterMap_congr
  intro i _
  have hlt : i.val < df.length := i.isLt
  simp only [natVals, dif_pos hlt, Fin.eta]
  cases h : sel i
  · simp [boolVal, h]
  · simp [boolVal, h]

lemma selected_length [DecidableEq K] (df : List (Player K)) (sel : Fin df.length → Bool) :
    ((get_selected_players df (natVals df.length sel)).length : K)
      = ((List.finRange df.length).map fun i => (boolVal (sel i) : K)).sum := by
  rw [get_selected_natVals, List.length_map, sum_map_boolVal]

lemma selected_map_sum [DecidableEq K] (df : List (Player K)) (sel : Fin df.length → Bool)
    (f : Player K → K) :
    ((get_selected_players df (natVals df.length sel)).map f).sum
      = ((List.finRange df.length).map fun i => f (df.get i) * boolVal (sel i)).sum := by
  rw [get_selected_natVals, List.map_map, sum_map_mul_boolVal]
  simp [Function.comp_def, List.get_eq_getElem]

lemma selected_filter_length [DecidableEq K] (df : List (Player K)) (sel : Fin df.length → Bool)
    (pred : Player K → Bool) :
    (((get_selected_players df (natVals df.length sel)).filter fun p => pred p).length : K)
      = (((List.finRange df.length).filter fun i => pred (df.get i)).map
          fun i => (boolVal (sel i) : K)).sum := by
  rw [get_selected_natVals, List.filter_map, List.length_map, List.filter_filter,
    sum_map_boolVal, List.filter_filter]
  norm_cast
  simpa [Function.comp] using
    length_filter_and_comm (List.finRange df.length)
      (fun i => pred (df.get i)) fun i => sel i

lemma selected_filter_length_mul [DecidableEq K] (df : List (Player K))
    (sel : Fin df.length → Bool) (pred : Player K → Bool) :
    (((get_selected_players df (natVals df.length sel)).filter fun p => pred p).length : K)
      = ((List.finRange df.length).map
          fun i => (boolVal (sel i) : K) * boolVal (pred (df.get i))).sum := by
  rw [get_selected_natVals, List.filter_map, List.length_map, List.filter_filter,
    sum_map_boolVal_mul_boolVal]
  norm_cast
  simpa [Function.comp] using
    length_filter_and_comm (List.finRange df.length)
      (fun i => pred (df.get i)) fun i => sel i

lemma selected_sublist [DecidableEq K] (df : List (Player K)) (sel : Fin df.length → Bool) :
    (get_selected_players df (natVals df.length sel)).Sublist df := by
  rw [get_selected_natVals]
  have h2 := List.Sublist.map df.get (List.filter_sublist (p := fun i => sel i)
    (List.finRange df.length))
  rw [List.finRange_map_get] at h2
  exact h2

lemma name_inj_of_nodup {K : Type} {cur : List (Player K)}
    (h : (cur.map Player.name).Nodup) {i j : Fin cur.length}
    (he : (cur.get i).name = (cur.get j).name) : i = j := by
  have hi : i.val < (cur.map Player.name).length := by
    rw [List.length_map]; exact i.isLt
  have hj : j.val < (cur.map Player.name).length := by
    rw [List.length_map]; exact j.isLt
  have hg : (cur.map Player.name)[i.val] = (cur.map Player.name)[j.val] := by
    simp only [List.getElem_map]
    simpa [List.get_eq_getElem] using he
  exact Fin.ext ((List.Nodup.getElem_inj_iff h).mp hg)

/-! ### Claim theorems -/

/-- C5: for every feasible input to the full-rebuild optimization — i.e.
whenever the solver hands back a 0/1 valuation satisfying the model built
by `optimize_roster` — the returned roster has exactly 10 players (the
hardcoded roster size) and total salary at most the salary cap; it is a
sub-sequence of the candidate table, so its players are pairwise distinct
whenever the candidate rows are. -/
theorem c5_rebuild_roster_size_and_cap {K : Type} [LinearOrderedCommRing K] [DecidableEq K]
    (df : List (Player K)) (salary_cap : K) (c : RosterConstraints)
    (sel : Fin df.length → Bool) (st : ℤ) (dbg : Bool) (g : SolverGlobal)
    (hf : RosterFeasible df salary_cap c sel) :
    (optimize_roster df salary_cap c dbg ⟨st, natVals df.length sel⟩ g).1.length = 10 ∧
    ((optimize_roster df salary_cap c dbg ⟨st, natVals df.length sel⟩ g).1.map
        Player.salary).sum ≤ salary_cap ∧
    (optimize_roster df salary_cap c dbg ⟨st, natVals df.length sel⟩ g).1.Sublist df ∧
    (df.Nodup → (optimize_roster df salary_cap c dbg ⟨st, natVals df.length sel⟩ g).1.Nodup) := by
  obtain ⟨h1, h2, h3, h4, h5⟩ := hf
  have hros : (optimize_roster df salary_cap c dbg ⟨st, natVals df.length sel⟩ g).1
      = get_selected_players df (natVals df.length sel) := rfl
  rw [hros]
  refine ⟨?_, ?_, selected_sublist df sel,
    fun hnd => List.Nodup.sublist (selected_sublist df sel) hnd⟩
  · have hl := selected_length (K := K) df sel
    rw [h2] at hl
    exact_mod_cast hl
  · rw [selected_map_sum]
    exact h1

/-- Witness for C5 at a concrete feasible instance (`df10`, all ten
players selected, cap 100). -/
theorem c5_witness :
    RosterFeasible df10 (100 : ℤ) {} selAll ∧
    ((optimize_roster df10 (100 : ℤ) {} false ⟨1, natVals df10.length selAll⟩
        ⟨false⟩).1.length = 10 ∧
      ((optimize_roster df10 (100 : ℤ) {} false ⟨1, natVals df10.length selAll⟩
          ⟨false⟩).1.map Player.salary).sum ≤ 100 ∧
      (optimize_roster df10 (100 : ℤ) {} false ⟨1, natVals df10.length selAll⟩
          ⟨false⟩).1.Sublist df10 ∧
      (df10.Nodup → (optimize_roster df10 (100 : ℤ) {} false
          ⟨1, natVals df10.length selAll⟩ ⟨false⟩).1.Nodup)) :=
  ⟨by decide, c5_rebuild_roster_size_and_cap df10 100 {} selAll 1 false ⟨false⟩ (by decide)⟩

/-- C6: for every feasible input to the full-rebuild optimization, the
number of selected players whose derived `is_front_court` flag is true is
exactly `front_court_req`, and likewise for `is_back_court` and
`back_court_req` (the flags come from the position code, and a
dual-eligible player is counted in both quotas). -/
theorem c6_rebuild_court_quotas_exact {K : Type} [LinearOrderedCommRing K] [DecidableEq K]
    (df : List (Player K)) (salary_cap : K) (c : RosterConstraints)
    (sel : Fin df.length → Bool) (st : ℤ) (dbg : Bool) (g : SolverGlobal)
    (hf : RosterFeasible df salary_cap c sel) :
    (((optimize_roster df salary_cap c dbg ⟨st, natVals df.length sel⟩ g).1.filter
        fun p => is_front_court p).length : ℤ) = c.front_court_req ∧
    (((optimize_roster df salary_cap c dbg ⟨st, natVals df.length sel⟩ g).1.filter
        fun p => is_back_court p).length : ℤ) = c.back_court_req := by
  obtain ⟨h1, h2, h3, h4, h5⟩ := hf
  have hros : (optimize_roster df salary_cap c dbg ⟨st, natVals df.length sel⟩ g).1
      = get_selected_players df (natVals df.length sel) := rfl
  rw [hros]
  constructor
  · have hl := (selected_filter_length_mul (K := K) df sel is_front_court).trans h3
    exact_mod_cast hl
  · have hl := (selected_filter_length_mul (K := K) df sel is_back_court).trans h4
    exact_mod_cast hl

/-- Witness for C6 at the same concrete feasible instance. -/
theorem c6_witness :
    RosterFeasible df10 (100 : ℤ) {} selAll ∧
    ((((optimize_roster df10 (100 : ℤ) {} false ⟨1, natVals df10.length selAll⟩
          ⟨false⟩).1.filter fun p => is_front_court p).length : ℤ) = 5 ∧
      (((optimize_roster df10 (100 : ℤ) {} false ⟨1, natVals df10.length selAll⟩
          ⟨false⟩).1.filter fun p => is_back_court p).length : ℤ) = 5) :=
  ⟨by decide, c6_rebuild_court_quotas_exact df10 100 {} selAll 1 false ⟨false⟩ (by decide)⟩

set_option maxRecDepth 10000 in
/-- C1: the rebuild path does not deliver an explicit infeasibility
outcome.  On the concrete candidate table `c1df` with cap 50 the model is
infeasible (no 0/1 selection satisfies the constraints), yet
`optimize_roster` — which never inspects `prob.status` — still returns the
plain player-list produced by `get_selected_players`; with the variable
values left unset by the failed solve that list is the empty (0-player)
partial roster, and nothing in the return value signals infeasibility. -/
theorem c1_rebuild_ignores_infeasibility :
    RosterInfeasible c1df (50 : ℤ) {} ∧
    (optimize_roster c1df (50 : ℤ) {} false ⟨-1, fun _ => none⟩ ⟨false⟩).1 = [] := by
  constructor
  · intro sel
    exact (forall_sel_iff c1df.length fun m => ¬ RosterFeasible c1df 50 {} m).mpr
      (by decide) sel
  · rfl

/-- C7: in trade mode the solver status is checked before any variable
value is read: for every solve result whose status is not 1, the call
reports the user-facing infeasibility message and produces no drop/add
lists — the outcome is the same whatever values the variable dictionaries
hold. -/
theorem c7_trade_infeasibility_reported {K : Type} [LinearOrderedCommRing K] [DecidableEq K]
    (cur avail : List (Player K)) (salary_cap : K) (transactions : ℤ) (dbg : Bool)
    (res : TradeSolveResult K) (g : SolverGlobal) (hst : res.status ≠ 1) :
    optimize_team_changes cur avail salary_cap transactions dbg res g
      = (TradeOutcome.infeasible infeasibleMsg, { msg := dbg }) := by
  rw [optimize_team_changes, if_pos hst]

/-- Witness for C7: a concrete unsuccessful solve (status −1). -/
theorem c7_witness :
    optimize_team_changes jokicRoster ([] : List (Player ℤ)) 100 2 false
      ⟨-1, fun _ => none, fun _ => none⟩ ⟨true⟩
      = (TradeOutcome.infeasible infeasibleMsg, ⟨false⟩) :=
  c7_trade_infeasibility_reported jokicRoster [] 100 2 false
    ⟨-1, fun _ => none, fun _ => none⟩ ⟨true⟩ (by decide)

/-- C9 (counterexample): a single optimization call does modify state
outside its own model and return value.  Starting from the process-global
solver state with the verbosity flag off, a rebuild call with
`debug_flag = true` leaves the global flag on (source line 75 assigns
`pulp.LpSolverDefault.msg = debug_flag` on a module-level shared object),
refuting the claim that no state shared between calls is mutated. -/
theorem c9_counterexample :
    (optimize_roster ([] : List (Player ℤ)) 100 {} true ⟨1, fun _ => none⟩
        { msg := false }).2.msg = true := rfl

/-- C9 (amended): the only cross-call state an optimization call touches
is the process-global solver verbosity flag, which it sets to its own
`debug_flag`; the returned roster or trade outcome is independent of the
flag's prior value, so independent calls cannot affect each other's
results — only the shared verbosity setting. -/
theorem c9_only_global_effect_is_msg_flag {K : Type} [LinearOrderedCommRing K] [DecidableEq K]
    (df cur avail : List (Player K)) (salary_cap : K) (c : RosterConstraints)
    (transactions : ℤ) (dbg : Bool) (res : SolveResult K) (tres : TradeSolveResult K)
    (g g2 : SolverGlobal) :
    (optimize_roster df salary_cap c dbg res g).1
      = (optimize_roster df salary_cap c dbg res g2).1 ∧
    (optimize_roster df salary_cap c dbg res g).2 = { msg := dbg } ∧
    (optimize_team_changes cur avail salary_cap transactions dbg tres g).1
      = (optimize_team_changes cur avail salary_cap transactions dbg tres g2).1 ∧
    (optimize_team_changes cur avail salary_cap transactions dbg tres g).2
      = { msg := dbg } := by
  refine ⟨rfl, rfl, rfl, ?_⟩
  rw [optimize_team_changes]
  by_cases h : tres.status ≠ 1
  · rw [if_pos h]
  · rw [if_neg h]

/-- C10: `main` runs trade optimization iff the file `current_team.txt`
exists in the working directory; the parsed command-line arguments play no
part in the mode selection. -/
theorem c10_mode_selected_by_file_presence {K : Type} (args args2 : CliArgs K)
    (fileExists : String → Bool) :
    (main_select_mode args fileExists = Mode.trade
      ↔ fileExists "current_team.txt" = true) ∧
    main_select_mode args fileExists = main_select_mode args2 fileExists := by
  refine ⟨?_, rfl⟩
  rw [main_select_mode]
  cases h : fileExists "current_team.txt" <;> simp

/-- C3: under the data-model invariant that current-roster names are
pairwise distinct, every feasible assignment of the trade model fixes the
drop indicator of each protected player on the roster to 0 (the model
constrains the first index carrying the protected name, which is the
player's unique row), so no protected player ever appears in the drop
list, regardless of the objective. -/
theorem c3_protected_player_never_dropped {K : Type} [LinearOrderedCommRing K] [DecidableEq K]
    (cur avail : List (Player K)) (salary_cap : K) (transactions : ℤ)
    (d : Fin cur.length → Bool) (a : Fin avail.length → Bool)
    (hname : (cur.map Player.name).Nodup)
    (hf : TradeFeasible cur avail salary_cap transactions d a) :
    ∀ i : Fin cur.length, (cur.get i).name ∈ protected_players →
      d i = false ∧
      ∀ q ∈ get_selected_players cur (natVals cur.length d),
        q.name ≠ (cur.get i).name := by
  intro i hmem
  obtain ⟨h1, h2, h3, h4, hprot, h6, h7, h8⟩ := hf
  have hsome : (firstIndexOf cur ((cur.get i).name)).isSome = true := by
    rw [firstIndexOf]
    exact List.find?_isSome.mpr ⟨i, List.mem_finRange i, by simp⟩
  obtain ⟨j, hj⟩ := Option.isSome_iff_exists.mp hsome
  have hpred : (cur.get j).name = (cur.get i).name := by
    have := List.find?_some (p := fun i2 => (cur.get i2).name = (cur.get i).name)
      (by rw [firstIndexOf] at hj; exact hj)
    simpa using this
  have hij : j = i := name_inj_of_nodup hname hpred
  have hdi : d i = false := by
    have hd := hprot ((cur.get i).name) hmem j hj
    rw [hij] at hd
    exact hd
  refine ⟨hdi, ?_⟩
  intro q hq hqname
  rw [get_selected_natVals] at hq
  obtain ⟨j2, hj2mem, hj2eq⟩ := List.mem_map.mp hq
  have hj2sel : d j2 = true := by
    have hmem2 := List.mem_filter.mp hj2mem
    simpa using hmem2.2
  have hj2i : j2 = i := by
    apply name_inj_of_nodup hname
    rw [hj2eq]
    exact hqname
  rw [hj2i, hdi] at hj2sel
  exact Bool.false_ne_true hj2sel

/-- Witness for C3: a feasible no-change assignment on a roster containing
Nikola Jokic (row 0), with an empty pool. -/
theorem c3_witness :
    ((jokicRoster.map Player.name).Nodup ∧
      TradeFeasible jokicRoster ([] : List (Player ℤ)) 100 2 jokicDrop emptyAdd) ∧
    (jokicDrop ⟨0, by decide⟩ = false ∧
      ∀ q ∈ get_selected_players jokicRoster (natVals jokicRoster.length jokicDrop),
        q.name ≠ (jokicRoster.get ⟨0, by decide⟩).name) :=
  ⟨⟨by decide, by decide⟩,
    c3_protected_player_never_dropped jokicRoster [] 100 2 jokicDrop emptyAdd
      (by decide) (by decide) ⟨0, by decide⟩ (by decide)⟩

set_option maxRecDepth 10000 in
/-- C2: the drop/add-equality the source intends on line 154 (its comment
reads "Add and drop the same amount") is not part of the model: the
chained comparison only contributes `lpSum(add_vars) <= transactions`.
On the concrete instance (`c2cur`, `c2avail`, cap 100, 2 transactions) the
assignment dropping only `f1` and adding nobody is feasible, and *every*
feasible assignment — hence every proposal an optimal solve can return —
drops exactly one player more than it adds, so no produced proposal has
equally many drops and adds. -/
theorem c2_drop_add_counts_differ :
    TradeFeasible c2cur c2avail (100 : ℤ) 2 c2drop c2add ∧
    ∀ (d : Fin c2cur.length → Bool) (a : Fin c2avail.length → Bool),
      TradeFeasible c2cur c2avail (100 : ℤ) 2 d a →
      (get_selected_players c2cur (natVals c2cur.length d)).length
        = (get_selected_players c2avail (natVals c2avail.length a)).length + 1 := by
  constructor
  · decide
  · have hcore : ∀ md, md < 2 ^ c2cur.length → ∀ ma, ma < 2 ^ c2avail.length →
        TradeFeasible c2cur c2avail (100 : ℤ) 2 (bitSel c2cur.length md)
          (bitSel c2avail.length ma) →
        (get_selected_players c2cur (natVals c2cur.length (bitSel c2cur.length md))).length
          = (get_selected_players c2avail
              (natVals c2avail.length (bitSel c2avail.length ma))).length + 1 := by
      decide
    intro d a hf
    obtain ⟨md, hmd, hed⟩ := bitSel_surjective c2cur.length d
    obtain ⟨ma, hma, hea⟩ := bitSel_surjective c2avail.length a
    subst hed
    subst hea
    exact hcore md hmd ma hma hf

/-- Witness for C2: the concrete feasible assignment of the instance
drops one player and adds none. -/
theorem c2_witness :
    (get_selected_players c2cur (natVals c2cur.length c2drop)).length
      = (get_selected_players c2avail (natVals c2avail.length c2add)).length + 1 :=
  c2_drop_add_counts_differ.2 c2drop c2add (by decide)

/-- C4 (counterexample): on the instance whose current roster is entirely
team AAA while AAA has no available player, the concrete assignment
dropping `m1`, `m5`, `m9` and adding `q1` satisfies every constraint the
trade model contains (3 transactions, cap 100), yet it drops three
current-roster players of the same team — the claimed per-team bound of
`max_per_team = 2` on drops does not hold for team AAA, because the
constraint loop only ranges over the teams of the available pool. -/
theorem c4_counterexample :
    TradeFeasible c4cur c4avail (100 : ℤ) 3 c4drop c4add ∧
    ((get_selected_players c4cur (natVals c4cur.length c4drop)).filter
        fun p => p.team = "AAA").length = 3 := by
  constructor
  · decide
  · decide

set_option maxRecDepth 10000 in
/-- C4 (amended): for every team that occurs among the available players,
every feasible assignment adds at most 2 candidates of that team and drops
at most 2 current-roster players of that team (the bound is the hardcoded
constant 2); teams occurring only on the current roster get no drop-side
bound — on the all-AAA instance `c4cur`/`c4avail` every feasible
assignment (hence every proposal an optimal solve can return) drops
exactly 3 players of team AAA. -/
theorem c4_per_team_churn_amended :
    (∀ (K : Type) [inst : LinearOrderedCommRing K] [inst2 : DecidableEq K]
        (cur avail : List (Player K)) (salary_cap : K) (transactions : ℤ)
        (d : Fin cur.length → Bool) (a : Fin avail.length → Bool),
      TradeFeasible cur avail salary_cap transactions d a →
      ∀ t ∈ uniqueTeams avail,
        ((get_selected_players avail (natVals avail.length a)).filter
            fun p => p.team = t).length ≤ 2 ∧
        ((get_selected_players cur (natVals cur.length d)).filter
            fun p => p.team = t).length ≤ 2) ∧
    (∀ (d : Fin c4cur.length → Bool) (a : Fin c4avail.length → Bool),
      TradeFeasible c4cur c4avail (100 : ℤ) 3 d a →
      ((get_selected_players c4cur (natVals c4cur.length d)).filter
          fun p => p.team = "AAA").length = 3) := by
  constructor
  · intro K instK instDK cur avail salary_cap transactions d a hf t ht
    obtain ⟨h1, h2, h3, h4, h5, h6, h7, h8⟩ := hf
    obtain ⟨ha, hd⟩ := h8 t ht
    constructor
    · have hl := selected_filter_length (K := K) avail a fun p => decide (p.team = t)
      have hle : (((get_selected_players avail (natVals avail.length a)).filter
          fun p => p.team = t).length : K) ≤ 2 := by
        rw [hl]
        exact ha
      exact_mod_cast hle
    · have hl := selected_filter_length (K := K) cur d fun p => decide (p.team = t)
      have hle : (((get_selected_players cur (natVals cur.length d)).filter
          fun p => p.team = t).length : K) ≤ 2 := by
        rw [hl]
        exact hd
      exact_mod_cast hle
  · have hcore : ∀ md, md < 2 ^ c4cur.length → ∀ ma, ma < 2 ^ c4avail.length →
        TradeFeasible c4cur c4avail (100 : ℤ) 3 (bitSel c4cur.length md)
          (bitSel c4avail.length ma) →
        ((get_selected_players c4cur (natVals c4cur.length (bitSel c4cur.length md))).filter
            fun p => p.team = "AAA").length = 3 := by
      decide
    intro d a hf
    obtain ⟨md, hmd, hed⟩ := bitSel_surjective c4cur.length d
    obtain ⟨ma, hma, hea⟩ := bitSel_surjective c4avail.length a
    subst hed
    subst hea
    exact hcore md hmd ma hma hf

/-- Witness for C4 (amended): at the concrete instance, team P1 (which is
in the available pool) sees at most 2 adds and at most 2 drops, while the
feasible assignment `c4drop`/`c4add` drops 3 players of team AAA. -/
theorem c4_witness :
    (((get_selected_players c4avail (natVals c4avail.length c4add)).filter
        fun p => p.team = "P1").length ≤ 2 ∧
      ((get_selected_players c4cur (natVals c4cur.length c4drop)).filter
        fun p => p.team = "P1").length ≤ 2) ∧
    ((get_selected_players c4cur (natVals c4cur.length c4drop)).filter
        fun p => p.team = "AAA").length = 3 :=
  ⟨c4_per_team_churn_amended.1 ℤ c4cur c4avail 100 3 c4drop c4add (by decide)
      "P1" (by decide),
    c4_per_team_churn_amended.2 c4drop c4add (by decide)⟩

/-- C8: `load_current_team` succeeds exactly when the supplied names
resolve to exactly 10 rows of the joined player table; otherwise it fails
with the error naming the resolved count, and in trade mode that failure
propagates out of `main` before `optimize_team_changes` ever runs — no
optimization model is built. -/
theorem c8_roster_load_validation {K : Type} [LinearOrderedCommRing K] [DecidableEq K]
    (names : List String) (db allPlayers : List (Player K)) (args : CliArgs K)
    (res : TradeSolveResult K) (g : SolverGlobal) :
    ((db.filter fun p => names.contains p.name).length ≠ 10 →
      load_current_team names db
        = Except.error (expectedMsg (db.filter fun p => names.contains p.name).length) ∧
      main_trade names db allPlayers args res g
        = Except.error (expectedMsg (db.filter fun p => names.contains p.name).length)) ∧
    ((db.filter fun p => names.contains p.name).length = 10 →
      load_current_team names db = Except.ok (db.filter fun p => names.contains p.name)) := by
  constructor
  · intro h
    have hload : load_current_team names db
        = Except.error (expectedMsg (db.filter fun p => names.contains p.name).length) := by
      rw [load_current_team]
      exact if_pos h
    refine ⟨hload, ?_⟩
    rw [main_trade, hload]
    rfl
  · intro h
    rw [load_current_team]
    exact if_neg fun hne => hne h

/-- Witness for C8: three resolved names yield the count-3 error and no
trade outcome, while the ten `jokicRoster` names load successfully. -/
theorem c8_witness :
    ((c8db.filter fun p => c8names.contains p.name).length = 3 ∧
      load_current_team c8names c8db = Except.error (expectedMsg 3) ∧
      main_trade c8names c8db c8db ⟨100, 2, false⟩
        ⟨1, fun _ => none, fun _ => none⟩ ⟨false⟩ = Except.error (expectedMsg 3)) ∧
    ((jokicRoster.filter fun p => c8names10.contains p.name).length = 10 ∧
      load_current_team c8names10 jokicRoster = Except.ok jokicRoster) := by
  constructor
  · refine ⟨by decide, ?_⟩
    have h := (c8_roster_load_validation c8names c8db c8db ⟨100, 2, false⟩
      ⟨1, fun _ => none, fun _ => none⟩ ⟨false⟩).1 (by decide)
    have h3 : (c8db.filter fun p => c8names.contains p.name).length = 3 := by decide
    rw [h3] at h
    exact h
  · refine ⟨by decide, ?_⟩
    have h := (c8_roster_load_validation c8names10 jokicRoster jokicRoster ⟨100, 2, false⟩
      ⟨1, fun _ => none, fun _ => none⟩ ⟨false⟩).2 (by decide)
    have heq : (jokicRoster.filter fun p => c8names10.contains p.name) = jokicRoster := by
      decide
    rw [heq] at h
    exact h
